import Mathlib

/-!
Verification of the Twisted STOMP client session state machine
(`src/stompest/async/client.py`, class `StompClient`).

The client is embedded shallowly: the mutable attributes of `StompClient`
become fields of `ClientState`, each method becomes a state-passing function,
and the effects the methods perform on the outside world (frames written to
the transport, `transport.loseConnection()`, resolution of the connect and
disconnect deferreds) are collected in an ordered list of `Output`s.
Asynchronous continuations are modelled by the event at which they run:
a message handler's completion is an explicit `handlerCompleted` call (the
body of the `inlineCallbacks` generator after its single `yield`), and the
drain deferred created by `disconnect` runs its one registered callback
(`_disconnect`) at the moment `_finish` fires it.

Collaborator modules that `client.py` imports but that are not part of the
sources under verification (`stompest.protocol.session`,
`stompest.protocol.commands`, `stompest.util`) are modelled from the
specification; each such definition carries a doc comment saying so.
-/

namespace Stompest

/-- STOMP frame commands (spec section 3, data model). -/
inductive Command
  | CONNECT | CONNECTED | SUBSCRIBE | UNSUBSCRIBE | SEND
  | MESSAGE | ACK | ERROR | RECEIPT | DISCONNECT
  deriving DecidableEq

/-- A STOMP frame: command, ordered headers, body. -/
structure Frame where
  cmd : Command
  headers : List (String × String)
  body : String
  deriving DecidableEq

/-- Header lookup (Python dict access on the header mapping). -/
def getHeader : List (String × String) → String → Option String
  | [], _ => none
  | (k, v) :: rest, key => if k = key then some v else getHeader rest key

/-- Header update, preserving insertion order (Python dict item assignment). -/
def setHeader : List (String × String) → String → String → List (String × String)
  | [], key, v => [(key, v)]
  | (k, w) :: rest, key, v =>
      if k = key then (key, v) :: rest else (k, w) :: setHeader rest key v

/-- Python `dict.setdefault`: insert the default only when the key is absent. -/
def setdefaultHeader (hs : List (String × String)) (key v : String) :
    List (String × String) :=
  match getHeader hs key with
  | some _ => hs
  | none => hs ++ [(key, v)]

/-- Protocol-fixed header names (`StompSpec`, spec section 6). -/
def MESSAGE_ID_HEADER : String := "message-id"

def DESTINATION_HEADER : String := "destination"

def ACK_HEADER : String := "ack"

def ID_HEADER : String := "id"

def SUBSCRIPTION_HEADER : String := "subscription"

/-- The error taxonomy of `stompest.error` used by the client
(spec section 7). -/
inductive StompError
  | connectTimeout (msg : String)
  | protocolError (msg : String)
  | connectionError (msg : String)
  | unknownSubscription (msg : String)
  deriving DecidableEq

/-- Modelled from the spec: `stompest.protocol.commands.connect` is not under
src/; it builds the CONNECT frame from the credentials. -/
def commands.connect (login passcode : String) : Frame :=
  { cmd := .CONNECT, headers := [("login", login), ("passcode", passcode)], body := "" }

/-- Modelled from the spec: `stompest.protocol.commands.disconnect` is not
under src/; it builds the header-less DISCONNECT frame. -/
def commands.disconnect : Frame :=
  { cmd := .DISCONNECT, headers := [], body := "" }

/-- Modelled from the spec: `stompest.protocol.commands.ack` is not under
src/; it builds an ACK frame carrying exactly the given headers. -/
def commands.ack (headers : List (String × String)) : Frame :=
  { cmd := .ACK, headers := headers, body := "" }

/-- Modelled from the spec: `stompest.protocol.commands.send` is not under
src/; it builds a SEND frame for the destination with the given body and
headers. -/
def commands.send (dest : String) (msg : String)
    (headers : List (String × String)) : Frame :=
  { cmd := .SEND, headers := setHeader headers DESTINATION_HEADER dest, body := msg }

/-- Modelled from the spec: `stompest.util.cloneStompMessage(msg,
persistent=True)` is not under src/; spec 4.2 step 6 says the message is
cloned and marked persistent. -/
def cloneStompMessage (msg : Frame) : Frame :=
  { msg with headers := setHeader msg.headers "persistent" "true" }

/-- Modelled from the spec: the Session token (spec 4.1), the lookup key
derived from destination plus subscription-id header. -/
structure Token where
  destination : String
  subscriptionId : Option String
  deriving DecidableEq

/-- Modelled from the spec: one subscription record kept by the Session for
replay (token, destination, subscribe headers, handler context data). -/
structure SessionSub where
  token : Token
  destination : String
  headers : List (String × String)
  errorDestination : Option String
  deriving DecidableEq

/-- Modelled from the spec: `stompest.protocol.session.StompSession` is not
under src/. It keeps the ordered subscription records used for replay and a
monotonic counter for fresh subscription ids (spec 4.1, section 3). -/
structure SessionState where
  subs : List SessionSub
  nextId : Nat
  deriving DecidableEq

/-- Modelled from the spec: `StompSession.token(headersOrFrame)` derives the
lookup key (destination + subscription-id header); on a SUBSCRIBE or
UNSUBSCRIBE frame the id header carries the subscription id, on MESSAGE
headers the subscription header does. -/
def SessionState.token (hs : List (String × String)) : Token :=
  { destination := (getHeader hs DESTINATION_HEADER).getD ""
    subscriptionId := (getHeader hs ID_HEADER).orElse
      (fun _ => getHeader hs SUBSCRIPTION_HEADER) }

/-- Modelled from the spec: `StompSession.subscribe(dest, headers, context)`
assigns a fresh subscription id header if absent, records the subscription
for later replay and returns the outgoing SUBSCRIBE frame (spec 4.1). The
token the session derived from the frame is returned alongside. -/
def SessionState.subscribe (s : SessionState) (dest : String)
    (headers : List (String × String)) (errDest : Option String) :
    SessionState × Frame × Token :=
  let hs := setHeader headers DESTINATION_HEADER dest
  let idPresent := (getHeader hs ID_HEADER).isSome
  let hs := if idPresent then hs else setHeader hs ID_HEADER (toString s.nextId)
  let nid := if idPresent then s.nextId else s.nextId + 1
  let frame : Frame := { cmd := .SUBSCRIBE, headers := hs, body := "" }
  let tok := SessionState.token hs
  let rec_ : SessionSub :=
    { token := tok, destination := dest, headers := hs, errorDestination := errDest }
  ({ subs := s.subs ++ [rec_], nextId := nid }, frame, tok)

/-- Modelled from the spec: `StompSession.unsubscribe(token)` removes the
subscription record and returns the UNSUBSCRIBE frame; it fails with
`UnknownSubscription` if the token has no active record (spec 4.1). -/
def SessionState.unsubscribe (s : SessionState) (tok : Token) :
    Except StompError (SessionState × Frame) :=
  if s.subs.any (fun r => decide (r.token = tok)) then
    let hs := match tok.subscriptionId with
      | some i => [(DESTINATION_HEADER, tok.destination), (ID_HEADER, i)]
      | none => [(DESTINATION_HEADER, tok.destination)]
    Except.ok
      ({ s with subs := s.subs.filter (fun r => decide (¬ r.token = tok)) },
       { cmd := .UNSUBSCRIBE, headers := hs, body := "" })
  else
    Except.error (StompError.unknownSubscription "subscription id unknown")

/-- Modelled from the spec: `StompSession.replay()` yields every recorded
subscription in insertion order and clears the record afterward (the forget
variant, spec 4.1); `client.py` re-records each one by re-subscribing. -/
def SessionState.replay (s : SessionState) : SessionState × List SessionSub :=
  ({ s with subs := [] }, s.subs)

/-- The per-token record `StompClient.subscribe` stores in
`self._subscriptions` (destination, ack mode, error destination; the handler
itself is user code whose completion is an explicit event). -/
structure SubscriptionRec where
  destination : String
  ack : String
  errorDestination : Option String
  deriving DecidableEq

/-- Lookup in the client's local subscription registry
(`self._subscriptions[token]`). -/
def lookupSub : List (Token × SubscriptionRec) → Token → Option SubscriptionRec
  | [], _ => none
  | (t, r) :: rest, tok => if t = tok then some r else lookupSub rest tok

/-- Remove a key from the registry (`self._subscriptions.pop(token)`). -/
def popSub (subs : List (Token × SubscriptionRec)) (tok : Token) :
    List (Token × SubscriptionRec) :=
  subs.filter (fun p => decide (¬ p.1 = tok))

/-- Remove one message id from the active set (`self._activeHandlers.remove`;
a Python set holds no duplicates, so removing the first occurrence is
faithful). -/
def eraseId : List String → String → List String
  | [], _ => []
  | x :: xs, i => if x = i then xs else x :: eraseId xs i

/-- The observable effects of the client: frames written to the transport,
`transport.loseConnection()`, resolution of the connect and disconnect
deferreds, and warnings logged. Listed in the order they happen. -/
inductive Output
  | wire (f : Frame)
  | loseConn
  | connectedCallback
  | connectedErrback (e : StompError)
  | disconnectedCallback
  | disconnectedErrback (e : StompError)
  | logWarn
  deriving DecidableEq

/-- The mutable attributes of `StompClient` (its `__init__`). Deferred
attributes are represented by whether a pending deferred exists; their
resolutions appear as `Output`s. -/
structure ClientState where
  session : SessionState
  alwaysDisconnectOnUnhandledMsg : Bool
  subscriptions : List (Token × SubscriptionRec)
  connectedDeferred : Bool
  connectTimeoutScheduled : Bool
  connectError : Option StompError
  disconnectedDeferred : Bool
  finishedHandlersDeferred : Bool
  disconnecting : Bool
  disconnectError : Option StompError
  activeHandlers : List String
  deriving DecidableEq

/-- `StompClient.__init__(session, alwaysDisconnectOnUnhandledMsg)`. -/
def StompClient.init (session : SessionState) (alwaysDisc : Bool) : ClientState :=
  { session := session
    alwaysDisconnectOnUnhandledMsg := alwaysDisc
    subscriptions := []
    connectedDeferred := false
    connectTimeoutScheduled := false
    connectError := none
    disconnectedDeferred := false
    finishedHandlersDeferred := false
    disconnecting := false
    disconnectError := none
    activeHandlers := [] }

/-- `StompClient._handlersInProgress`. -/
def StompClient._handlersInProgress (st : ClientState) : Bool :=
  !st.activeHandlers.isEmpty

/-- `StompClient._handlerFinished(messageId)`. -/
def StompClient._handlerFinished (st : ClientState) (messageId : String) :
    ClientState :=
  { st with activeHandlers := eraseId st.activeHandlers messageId }

/-- `StompClient._handlerStarted(messageId)`: raises `StompProtocolError`
when the id is already active, otherwise adds it to the active set. -/
def StompClient._handlerStarted (st : ClientState) (messageId : String) :
    Except StompError ClientState :=
  if messageId ∈ st.activeHandlers then
    Except.error (StompError.protocolError "Duplicate message received")
  else
    Except.ok { st with activeHandlers := messageId :: st.activeHandlers }

/-- `StompClient._isClientAck(subscription)`. -/
def StompClient._isClientAck (sub : SubscriptionRec) : Bool :=
  sub.ack = "client" ∨ sub.ack = "client-individual"

/-- `StompClient._ack(messageId)`: the ACK frame it sends. -/
def ackFrameFor (messageId : String) : Frame :=
  commands.ack [(MESSAGE_ID_HEADER, messageId)]

/-- `StompClient._disconnect`: sends DISCONNECT, closes the transport, and on
a clean disconnect (no recorded disconnect error) forgets the session's
subscriptions by exhausting `session.replay()`. -/
def StompClient._disconnect (st : ClientState) : ClientState × List Output :=
  let outs := [Output.wire commands.disconnect, Output.loseConn]
  if st.disconnectError.isNone then
    ({ st with session := (st.session.replay).1 }, outs)
  else
    (st, outs)

/-- `StompClient._finish`: when a drain deferred is pending and no handlers
remain active, fire it. Its only registered callback is the
`lambda _ : self . _disconnect()` attached in `disconnect`, so firing it runs
`_disconnect`. -/
def StompClient._finish (st : ClientState) : ClientState × List Output :=
  if !st.finishedHandlersDeferred || StompClient._handlersInProgress st then
    (st, [])
  else
    StompClient._disconnect { st with finishedHandlersDeferred := false }

/-- `StompClient._postProcessMessage(messageId)`. -/
def StompClient._postProcessMessage (st : ClientState) (messageId : String) :
    ClientState × List Output :=
  StompClient._finish (StompClient._handlerFinished st messageId)

/-- `StompClient.disconnect(failure)`: records the failure, and on the first
call sets the disconnecting flag and chains `_disconnect` after the drain:
with no active handlers `_finishHandlers` returns None and
`defer.maybeDeferred` runs `_disconnect` at once, otherwise the drain
deferred is created and `_disconnect` waits for `_finish` to fire it.
Returns `self._disconnectedDeferred` (None when never connected). -/
def StompClient.disconnect (st : ClientState) (failure : Option StompError) :
    ClientState × List Output × Option Unit :=
  let st := if failure.isSome then { st with disconnectError := failure } else st
  let r :=
    if !st.disconnecting then
      let st := { st with disconnecting := true }
      if StompClient._handlersInProgress st then
        ({ st with finishedHandlersDeferred := true }, ([] : List Output))
      else
        StompClient._disconnect st
    else
      (st, ([] : List Output))
  (r.1, r.2, if r.1.disconnectedDeferred then some () else none)

/-- `StompClient._messageHandlerFailed(failure, messageId, msg, errDest)`:
forward a persistent clone to the error destination and ACK the original
when one is configured, then — unless recovered — initiate disconnect with
the failure as cause. -/
def StompClient._messageHandlerFailed (st : ClientState) (failure : StompError)
    (messageId : String) (msg : Frame) (errDest : Option String) :
    ClientState × List Output :=
  match errDest with
  | some dest =>
      let errorMessage := cloneStompMessage msg
      let outs := [Output.wire (commands.send dest errorMessage.body errorMessage.headers),
                   Output.wire (ackFrameFor messageId)]
      if !st.alwaysDisconnectOnUnhandledMsg then
        (st, outs)
      else
        let r := StompClient.disconnect st (some failure)
        (r.1, outs ++ r.2.1)
  | none =>
      let r := StompClient.disconnect st (some failure)
      (r.1, r.2.1)

/-- The continuation of `StompClient._handleMessage` after its `yield`: on
handler success send an ACK when the ack mode requires one, on handler
failure run `_messageHandlerFailed`; in either case finish with
`_postProcessMessage` (the `finally` clause). `outcome` is `none` for
success and carries the raised error otherwise; `sub` and `msg` are the
values the generator closed over. -/
def StompClient.handlerCompleted (st : ClientState) (messageId : String)
    (msg : Frame) (sub : SubscriptionRec) (outcome : Option StompError) :
    ClientState × List Output :=
  let r1 :=
    match outcome with
    | none =>
        if StompClient._isClientAck sub then (st, [Output.wire (ackFrameFor messageId)])
        else (st, ([] : List Output))
    | some e => StompClient._messageHandlerFailed st e messageId msg sub.errorDestination
  let r2 := StompClient._postProcessMessage r1.1 messageId
  (r2.1, r1.2 ++ r2.2)

/-- How far `StompClient._handleMessage` got before its `yield`. -/
inductive DispatchResult
  | badFrame
  | ignoredNoHandler
  | ignoredDisconnecting
  | dispatchError (e : StompError)
  | started (sub : SubscriptionRec)
  deriving DecidableEq

/-- The part of `StompClient._handleMessage` that runs synchronously when a
MESSAGE frame is dispatched: extract the message id, look the subscription
up by token (log and drop on failure), drop when disconnecting, then
`_handlerStarted` (whose duplicate-id `StompProtocolError` surfaces as the
errored result of the dispatch routine). `started sub` means the handler was
invoked; its completion is a separate `handlerCompleted` event. -/
def StompClient._handleMessage (st : ClientState) (msg : Frame) :
    ClientState × List Output × DispatchResult :=
  match getHeader msg.headers MESSAGE_ID_HEADER with
  | none => (st, [], DispatchResult.badFrame)
  | some messageId =>
    match lookupSub st.subscriptions (SessionState.token msg.headers) with
    | none => (st, [Output.logWarn], DispatchResult.ignoredNoHandler)
    | some sub =>
      if st.disconnecting then
        (st, [], DispatchResult.ignoredDisconnecting)
      else
        match StompClient._handlerStarted st messageId with
        | Except.error e => (st, [], DispatchResult.dispatchError e)
        | Except.ok st' => (st', [], DispatchResult.started sub)

/-- `StompClient.subscribe(dest, handler, headers, ...)`: builds the frame
via the session, defaults the ack header to client, registers the
subscription locally, sends the frame and returns the token. -/
def StompClient.subscribe (st : ClientState) (dest : String)
    (headers : List (String × String)) (errorDestination : Option String) :
    ClientState × List Output × Token :=
  let s := st.session.subscribe dest headers errorDestination
  let tok := s.2.2
  let hs := setdefaultHeader s.2.1.headers ACK_HEADER "client"
  let frame := { s.2.1 with headers := hs }
  let ack := (getHeader hs ACK_HEADER).getD "client"
  let sub : SubscriptionRec :=
    { destination := (getHeader hs DESTINATION_HEADER).getD ""
      ack := ack, errorDestination := errorDestination }
  ({ st with session := s.1, subscriptions := st.subscriptions ++ [(tok, sub)] },
   [Output.wire frame], tok)

/-- `StompClient.unsubscribe(subscription)`: the session builds the frame
first — outside the try block, so an `UnknownSubscription` failure from the
session propagates to the caller (`Except.error`). Only the local
`self._subscriptions.pop(token)` is guarded: when that raises, a warning is
logged and no frame is sent; otherwise the registration is removed and the
UNSUBSCRIBE frame goes out. -/
def StompClient.unsubscribe (st : ClientState) (subscription : Token) :
    Except StompError (ClientState × List Output) :=
  match st.session.unsubscribe subscription with
  | Except.error e => Except.error e
  | Except.ok (session, frame) =>
    let st := { st with session := session }
    let tok := SessionState.token frame.headers
    match lookupSub st.subscriptions tok with
    | none => Except.ok (st, [Output.logWarn])
    | some _ =>
        Except.ok ({ st with subscriptions := popSub st.subscriptions tok },
                   [Output.wire frame])

/-- `StompClient.connect(login, passcode, timeout)`: schedules the timeout
when one is given, sends CONNECT, creates the pending connect deferred. -/
def StompClient.connect (st : ClientState) (login passcode : String)
    (timeout : Option Nat) : ClientState × List Output :=
  let st := if timeout.isSome then { st with connectTimeoutScheduled := true } else st
  ({ st with connectedDeferred := true },
   [Output.wire (commands.connect login passcode)])

/-- `StompClient._connectTimeout(timeout)`: records the `StompConnectTimeout`
error and closes the transport; the deferred is resolved only later, by the
transport-close event. -/
def StompClient._connectTimeout (st : ClientState) : ClientState × List Output :=
  ({ st with connectTimeoutScheduled := false
             connectError := some (StompError.connectTimeout "Connect command timed out") },
   [Output.loseConn])

/-- `StompClient._cancelConnectTimeout(reason)`. -/
def StompClient._cancelConnectTimeout (st : ClientState) : ClientState :=
  { st with connectTimeoutScheduled := false }

/-- `StompClient._replay`: exhaust `session.replay()` (which clears the
record) and re-subscribe each yielded subscription. -/
def StompClient._replay (st : ClientState) : ClientState × List Output :=
  let r := st.session.replay
  r.2.foldl
    (fun acc r =>
      let s := StompClient.subscribe acc.1 r.destination r.headers r.errorDestination
      (s.1, acc.2 ++ s.2.1))
    ({ st with session := r.1 }, ([] : List Output))

/-- `StompClient._handleConnected(msg)`: cancel the connect timeout, create
the disconnected deferred, replay subscriptions, then fire the connect
deferred's success callback — unconditionally, without consulting
`self._connectError`. (With no pending connect deferred the source would
raise an AttributeError on `None.callback`; no modelled run reaches that.) -/
def StompClient._handleConnected (st : ClientState) : ClientState × List Output :=
  let st := StompClient._cancelConnectTimeout st
  let st := { st with disconnectedDeferred := true }
  let r := StompClient._replay st
  if r.1.connectedDeferred then
    ({ r.1 with connectedDeferred := false }, r.2 ++ [Output.connectedCallback])
  else
    (r.1, r.2)

/-- `StompClient._handleConnectionLostConnect`: errback a still-pending
connect deferred with the recorded connect error, or a generic connection
error when none was recorded. -/
def StompClient._handleConnectionLostConnect (st : ClientState) :
    ClientState × List Output :=
  if !st.connectedDeferred then
    (st, [])
  else
    match st.connectError with
    | some e =>
        ({ st with connectError := none, connectedDeferred := false },
         [Output.connectedErrback e])
    | none =>
        ({ st with connectedDeferred := false },
         [Output.connectedErrback (StompError.connectionError "Unexpected connection loss")])

/-- `StompClient._handleConnectionLostDisconnect`: resolve a still-pending
disconnected deferred — with the recorded disconnect error (set to a generic
connection error first when disconnect was never requested), or with
success. -/
def StompClient._handleConnectionLostDisconnect (st : ClientState) :
    ClientState × List Output :=
  if !st.disconnectedDeferred then
    (st, [])
  else
    let unexpErr := some (StompError.connectionError "Unexpected connection loss")
    let st :=
      if !st.disconnecting then { st with disconnectError := unexpErr } else st
    match st.disconnectError with
    | some e =>
        ({ st with disconnectError := none, disconnectedDeferred := false },
         [Output.disconnectedErrback e])
    | none =>
        ({ st with disconnectedDeferred := false },
         [Output.disconnectedCallback])

/-- `StompClient.connectionLost(reason)`: cancel the connect timeout, then
resolve the pending connect and disconnect deferreds in that order. -/
def StompClient.connectionLost (st : ClientState) : ClientState × List Output :=
  let st := StompClient._cancelConnectTimeout st
  let r1 := StompClient._handleConnectionLostConnect st
  let r2 := StompClient._handleConnectionLostDisconnect r1.1
  (r2.1, r1.2 ++ r2.2)

/-- One handler-completion event: the generator resumes for `messageId` with
the closed-over message and subscription, succeeding (`outcome = none`) or
failing with an error. -/
structure Completion where
  messageId : String
  msg : Frame
  sub : SubscriptionRec
  outcome : Option StompError
  deriving DecidableEq

/-- Run a sequence of handler completions, accumulating outputs in order. -/
def runCompletions : ClientState → List Completion → ClientState × List Output
  | st, [] => (st, [])
  | st, c :: cs =>
      let r1 := StompClient.handlerCompleted st c.messageId c.msg c.sub c.outcome
      let r2 := runCompletions r1.1 cs
      (r2.1, r1.2 ++ r2.2)

/-- Iterated `eraseId`: the active set left after a list of completions. -/
def eraseAll (l : List String) : List Completion → List String
  | [] => l
  | c :: cs => eraseAll (eraseId l c.messageId) cs

/-- Whether a DISCONNECT frame occurs among the outputs. -/
def sentDisconnect (outs : List Output) : Bool :=
  outs.any fun o =>
    match o with
    | Output.wire f => f.cmd = Command.DISCONNECT
    | _ => false

/-- The ACK frames among the outputs, in order. -/
def ackFrames (outs : List Output) : List Frame :=
  outs.filterMap fun o =>
    match o with
    | Output.wire f => if f.cmd = Command.ACK then some f else none
    | _ => none

/-- The SEND frames among the outputs, in order. -/
def sendFrames (outs : List Output) : List Frame :=
  outs.filterMap fun o =>
    match o with
    | Output.wire f => if f.cmd = Command.SEND then some f else none
    | _ => none

def exDirtyState : ClientState :=
  { StompClient.init ⟨[], 0⟩ false with
      disconnecting := true
      disconnectedDeferred := true
      disconnectError := some (StompError.connectionError "earlier cause") }

def exToken : Token := { destination := "/queue/a", subscriptionId := some "0" }

def exSub : SubscriptionRec :=
  { destination := "/queue/a", ack := "client", errorDestination := none }

def exSubAuto : SubscriptionRec :=
  { destination := "/queue/a", ack := "auto", errorDestination := none }

def exSubErr : SubscriptionRec :=
  { destination := "/queue/a", ack := "client", errorDestination := some "/queue/err" }

def exMsg : Frame :=
  { cmd := .MESSAGE
    headers := [("destination", "/queue/a"), ("message-id", "m1"), ("subscription", "0")]
    body := "body" }

def exClient : ClientState :=
  { StompClient.init ⟨[], 0⟩ false with subscriptions := [(exToken, exSub)] }

def exCompletion1 : Completion :=
  { messageId := "m1", msg := exMsg, sub := exSub, outcome := none }

def exCompletion2 : Completion :=
  { messageId := "m2", msg := exMsg, sub := exSub, outcome := none }

def exDraining : ClientState :=
  { StompClient.init ⟨[], 0⟩ false with activeHandlers := ["m1", "m2"] }

def exSessionSub : SessionSub :=
  { token := exToken, destination := "/queue/a"
    headers := [("destination", "/queue/a"), ("id", "0")], errorDestination := none }

def exSession : SessionState := { subs := [exSessionSub], nextId := 1 }

def exUnsubFrame : Frame :=
  { cmd := .UNSUBSCRIBE, headers := [("destination", "/queue/a"), ("id", "0")], body := "" }

def exClientNoLocal : ClientState := StompClient.init exSession false

def exClientBoth : ClientState :=
  { StompClient.init exSession false with subscriptions := [(exToken, exSub)] }

def exDrainingFull : ClientState :=
  { StompClient.init ⟨[], 0⟩ false with
      subscriptions := [(exToken, exSub)], disconnecting := true
      activeHandlers := ["m1"] }

lemma isEmpty_false_of_ne_nil {α : Type _} {l : List α} (h : l ≠ []) :
    l.isEmpty = false := by
  cases l with
  | nil => exact absurd rfl h
  | cons a t => rfl

lemma eraseAll_nil (cs : List Completion) : eraseAll [] cs = [] := by
  induction cs with
  | nil => rfl
  | cons c cs ih => simpa [eraseAll, eraseId] using ih

lemma eraseAll_append (l : List String) (cs ds : List Completion) :
    eraseAll l (cs ++ ds) = eraseAll (eraseAll l cs) ds := by
  induction cs generalizing l with
  | nil => rfl
  | cons c cs ih => simp [eraseAll, ih]

lemma sentDisconnect_append (a b : List Output) :
    sentDisconnect (a ++ b) = (sentDisconnect a || sentDisconnect b) := by
  simp [sentDisconnect, List.any_append]

lemma messageHandlerFailed_preserves (st : ClientState) (e : StompError)
    (i : String) (msg : Frame) (errDest : Option String)
    (hd : st.disconnecting = true) :
    sentDisconnect (StompClient._messageHandlerFailed st e i msg errDest).2 = false ∧
    (StompClient._messageHandlerFailed st e i msg errDest).1.disconnecting = true ∧
    (StompClient._messageHandlerFailed st e i msg errDest).1.finishedHandlersDeferred
      = st.finishedHandlersDeferred ∧
    (StompClient._messageHandlerFailed st e i msg errDest).1.activeHandlers
      = st.activeHandlers := by
  cases errDest with
  | none =>
      simp [StompClient._messageHandlerFailed, StompClient.disconnect, hd, sentDisconnect]
  | some d =>
      cases hA : st.alwaysDisconnectOnUnhandledMsg <;>
        simp [StompClient._messageHandlerFailed, StompClient.disconnect, hd, hA,
              sentDisconnect, commands.send, ackFrameFor, commands.ack]

lemma postProcess_pending (st : ClientState) (i : String)
    (hne : eraseId st.activeHandlers i ≠ []) :
    StompClient._postProcessMessage st i
      = ({ st with activeHandlers := eraseId st.activeHandlers i }, []) := by
  have h := isEmpty_false_of_ne_nil hne
  simp [StompClient._postProcessMessage, StompClient._finish,
        StompClient._handlerFinished, StompClient._handlersInProgress, h]

lemma postProcess_final (st : ClientState) (i : String)
    (hf : st.finishedHandlersDeferred = true)
    (hz : eraseId st.activeHandlers i = []) :
    sentDisconnect (StompClient._postProcessMessage st i).2 = true := by
  cases hE : st.disconnectError <;>
    simp [StompClient._postProcessMessage, StompClient._finish,
          StompClient._handlerFinished, StompClient._handlersInProgress, hf, hz,
          StompClient._disconnect, sentDisconnect, commands.disconnect, hE]

lemma handlerCompleted_keeps_drain (st : ClientState) (c : Completion)
    (hd : st.disconnecting = true) (hf : st.finishedHandlersDeferred = true)
    (hne : eraseId st.activeHandlers c.messageId ≠ []) :
    sentDisconnect (StompClient.handlerCompleted st c.messageId c.msg c.sub c.outcome).2 = false ∧
    (StompClient.handlerCompleted st c.messageId c.msg c.sub c.outcome).1.disconnecting = true ∧
    (StompClient.handlerCompleted st c.messageId c.msg c.sub c.outcome).1.finishedHandlersDeferred = true ∧
    (StompClient.handlerCompleted st c.messageId c.msg c.sub c.outcome).1.activeHandlers
      = eraseId st.activeHandlers c.messageId := by
  cases hO : c.outcome with
  | none =>
      cases hAck : StompClient._isClientAck c.sub <;>
        simp [StompClient.handlerCompleted, hO, hAck,
              postProcess_pending st c.messageId hne, sentDisconnect,
              ackFrameFor, commands.ack, hd, hf]
  | some e =>
      obtain ⟨m1, m2, m3, m4⟩ :=
        messageHandlerFailed_preserves st e c.messageId c.msg c.sub.errorDestination hd
      have hne1 : eraseId (StompClient._messageHandlerFailed st e c.messageId c.msg
          c.sub.errorDestination).1.activeHandlers c.messageId ≠ [] := by
        rw [m4]; exact hne
      rw [StompClient.handlerCompleted]
      simp only [hO]
      rw [postProcess_pending _ _ hne1]
      refine ⟨?_, ?_, ?_, ?_⟩
      · rw [List.append_nil]; exact m1
      · simpa using m2
      · simpa [hf] using m3
      · simp [m4]

lemma runCompletions_keeps_drain (cs : List Completion) :
    ∀ st : ClientState, st.disconnecting = true →
    st.finishedHandlersDeferred = true →
    eraseAll st.activeHandlers cs ≠ [] →
    sentDisconnect (runCompletions st cs).2 = false ∧
    (runCompletions st cs).1.disconnecting = true ∧
    (runCompletions st cs).1.finishedHandlersDeferred = true ∧
    (runCompletions st cs).1.activeHandlers = eraseAll st.activeHandlers cs := by
  induction cs with
  | nil =>
      intro st hd hf _
      exact ⟨rfl, hd, hf, rfl⟩
  | cons c cs ih =>
      intro st hd hf hne
      have hne1 : eraseId st.activeHandlers c.messageId ≠ [] := by
        intro hcontra
        apply hne
        show eraseAll st.activeHandlers (c :: cs) = []
        rw [eraseAll, hcontra, eraseAll_nil]
      obtain ⟨k1, k2, k3, k4⟩ := handlerCompleted_keeps_drain st c hd hf hne1
      have hne2 : eraseAll (StompClient.handlerCompleted st c.messageId c.msg c.sub
          c.outcome).1.activeHandlers cs ≠ [] := by
        rw [k4]
        exact hne
      obtain ⟨r1, r2, r3, r4⟩ := ih _ k2 k3 hne2
      refine ⟨?_, ?_, ?_, ?_⟩
      · show sentDisconnect ((StompClient.handlerCompleted st c.messageId c.msg c.sub
          c.outcome).2 ++ (runCompletions _ cs).2) = false
        rw [sentDisconnect_append, k1, r1]
        rfl
      · exact r2
      · exact r3
      · show (runCompletions _ cs).1.activeHandlers = _
        rw [r4, k4]
        rfl

lemma sentDisconnect_cons (o : Output) (l : List Output) :
    sentDisconnect (o :: l)
      = ((match o with
          | Output.wire f => decide (f.cmd = Command.DISCONNECT)
          | _ => false) || sentDisconnect l) := by
  simp [sentDisconnect]

lemma handlerCompleted_fires_drain (st : ClientState) (c : Completion)
    (hd : st.disconnecting = true) (hf : st.finishedHandlersDeferred = true)
    (hz : eraseId st.activeHandlers c.messageId = []) :
    sentDisconnect (StompClient.handlerCompleted st c.messageId c.msg c.sub c.outcome).2 = true := by
  cases hO : c.outcome with
  | none =>
      have hpp : sentDisconnect (StompClient._postProcessMessage st c.messageId).2 = true :=
        postProcess_final st c.messageId hf hz
      cases hAck : StompClient._isClientAck c.sub <;>
        simp [StompClient.handlerCompleted, hO, hAck, sentDisconnect_append,
              sentDisconnect_cons, hpp, ackFrameFor, commands.ack]
  | some e =>
      obtain ⟨m1, m2, m3, m4⟩ :=
        messageHandlerFailed_preserves st e c.messageId c.msg c.sub.errorDestination hd
      have hpp : sentDisconnect (StompClient._postProcessMessage
          (StompClient._messageHandlerFailed st e c.messageId c.msg
            c.sub.errorDestination).1 c.messageId).2 = true := by
        apply postProcess_final
        · rw [m3]; exact hf
        · rw [m4]; exact hz
      rw [StompClient.handlerCompleted]
      simp only [hO]
      rw [sentDisconnect_append, hpp]
      simp

lemma disconnect_with_active (st : ClientState) (cause : Option StompError)
    (hd : st.disconnecting = false) (hne : st.activeHandlers ≠ []) :
    (StompClient.disconnect st cause).2.1 = [] ∧
    (StompClient.disconnect st cause).1.disconnecting = true ∧
    (StompClient.disconnect st cause).1.finishedHandlersDeferred = true ∧
    (StompClient.disconnect st cause).1.activeHandlers = st.activeHandlers := by
  have hne' := isEmpty_false_of_ne_nil hne
  cases cause <;>
    simp [StompClient.disconnect, StompClient._handlersInProgress, hd, hne']

/-- Claim C3: when `disconnect()` is called with no active handlers the drain
resolves immediately and the DISCONNECT frame is written at once; when N > 0
handlers are active, the `disconnect()` call itself writes no DISCONNECT, no
DISCONNECT is written while any of the handlers is still active, and the
completion of the last one triggers it. -/
theorem C3_drain_before_disconnect :
    (∀ (st : ClientState) (cause : Option StompError),
      st.disconnecting = false → st.activeHandlers = [] →
      sentDisconnect (StompClient.disconnect st cause).2.1 = true)
    ∧
    (∀ (st : ClientState) (cause : Option StompError) (cs : List Completion) (c : Completion),
      st.disconnecting = false →
      st.activeHandlers ≠ [] →
      eraseAll st.activeHandlers cs ≠ [] →
      eraseAll st.activeHandlers (cs ++ [c]) = [] →
      sentDisconnect (StompClient.disconnect st cause).2.1 = false ∧
      sentDisconnect (runCompletions (StompClient.disconnect st cause).1 cs).2 = false ∧
      sentDisconnect (StompClient.handlerCompleted
        (runCompletions (StompClient.disconnect st cause).1 cs).1
        c.messageId c.msg c.sub c.outcome).2 = true) := by
  constructor
  · intro st cause hd hz
    cases hE : (if cause.isSome then { st with disconnectError := cause } else st).disconnectError <;>
      cases cause <;>
        simp_all [StompClient.disconnect, StompClient._handlersInProgress,
                  StompClient._disconnect, sentDisconnect, commands.disconnect]
  · intro st cause cs c hd hne hcs hlast
    obtain ⟨d1, d2, d3, d4⟩ := disconnect_with_active st cause hd hne
    have hcs1 : eraseAll (StompClient.disconnect st cause).1.activeHandlers cs ≠ [] := by
      rw [d4]; exact hcs
    obtain ⟨r1, r2, r3, r4⟩ := runCompletions_keeps_drain cs _ d2 d3 hcs1
    refine ⟨by rw [d1]; rfl, r1, ?_⟩
    apply handlerCompleted_fires_drain _ c r2 r3
    rw [r4, d4]
    rw [eraseAll_append] at hlast
    simpa [eraseAll] using hlast

/-- Claim C1 (code behaviour at the claimed race): after the connect timeout
has fired — recording a `StompConnectTimeout` in `_connectError` and closing
the transport — processing a CONNECTED frame before the transport-close event
fires the connect deferred's success callback (`_handleConnected` never
consults `_connectError`), and the subsequent connection-loss event finds no
pending connect deferred, so the recorded ConnectTimeout is never delivered:
the connect future resolves with success, not with ConnectTimeout. -/
theorem C1_connect_timeout_race :
    ((StompClient._connectTimeout
        (StompClient.connect (StompClient.init ⟨[], 0⟩ false) "login" "passcode"
          (some 30)).1).1.connectError
      = some (StompError.connectTimeout "Connect command timed out")) ∧
    ((StompClient._handleConnected
        (StompClient._connectTimeout
          (StompClient.connect (StompClient.init ⟨[], 0⟩ false) "login" "passcode"
            (some 30)).1).1).2
      = [Output.connectedCallback]) ∧
    ((StompClient.connectionLost
        (StompClient._handleConnected
          (StompClient._connectTimeout
            (StompClient.connect (StompClient.init ⟨[], 0⟩ false) "login" "passcode"
              (some 30)).1).1).1).2
      = [Output.disconnectedErrback (StompError.connectionError "Unexpected connection loss")]) := by
  exact ⟨rfl, rfl, rfl⟩

/-- Claim C2: dispatching a second MESSAGE frame carrying an already-active
message-id, matching a registered subscription while not disconnecting,
makes `_handlerStarted` raise `StompProtocolError` (surfacing as the errored
result of the dispatch routine) and leaves the state unchanged: the
message-id is never added to the active-handlers set twice. -/
theorem C2_duplicate_message_raises
    (st : ClientState) (msg1 msg2 : Frame) (i : String) (sub1 : SubscriptionRec)
    (h1 : getHeader msg1.headers MESSAGE_ID_HEADER = some i)
    (h2 : getHeader msg2.headers MESSAGE_ID_HEADER = some i)
    (hs1 : lookupSub st.subscriptions (SessionState.token msg1.headers) = some sub1)
    (hs2 : (lookupSub st.subscriptions (SessionState.token msg2.headers)).isSome = true)
    (hd : st.disconnecting = false)
    (hfresh : i ∉ st.activeHandlers) :
    (StompClient._handleMessage st msg1).2.2 = DispatchResult.started sub1 ∧
    (StompClient._handleMessage st msg1).1.activeHandlers = i :: st.activeHandlers ∧
    ((StompClient._handleMessage (StompClient._handleMessage st msg1).1 msg2).2.2
      = DispatchResult.dispatchError (StompError.protocolError "Duplicate message received")) ∧
    (StompClient._handleMessage (StompClient._handleMessage st msg1).1 msg2).1
      = (StompClient._handleMessage st msg1).1 := by
  have hstep1 : StompClient._handleMessage st msg1
      = ({ st with activeHandlers := i :: st.activeHandlers }, [],
         DispatchResult.started sub1) := by
    simp [StompClient._handleMessage, h1, hs1, hd, StompClient._handlerStarted, hfresh]
  rw [hstep1]
  obtain ⟨sub2, hsub2⟩ := Option.isSome_iff_exists.mp hs2
  have hs2' : lookupSub ({ st with activeHandlers := i :: st.activeHandlers } :
      ClientState).subscriptions (SessionState.token msg2.headers) = some sub2 := hsub2
  refine ⟨rfl, rfl, ?_, ?_⟩ <;>
    simp [StompClient._handleMessage, h2, hs2', hd, StompClient._handlerStarted]

lemma ackFrames_append (a b : List Output) :
    ackFrames (a ++ b) = ackFrames a ++ ackFrames b := by
  simp [ackFrames, List.filterMap_append]

lemma sendFrames_append (a b : List Output) :
    sendFrames (a ++ b) = sendFrames a ++ sendFrames b := by
  simp [sendFrames, List.filterMap_append]

lemma ackFrames_wire_cons (f : Frame) (l : List Output) :
    ackFrames (Output.wire f :: l)
      = if f.cmd = Command.ACK then f :: ackFrames l else ackFrames l := by
  by_cases hc : f.cmd = Command.ACK <;>
    simp [ackFrames, List.filterMap_cons, hc]

lemma sendFrames_wire_cons (f : Frame) (l : List Output) :
    sendFrames (Output.wire f :: l)
      = if f.cmd = Command.SEND then f :: sendFrames l else sendFrames l := by
  by_cases hc : f.cmd = Command.SEND <;>
    simp [sendFrames, List.filterMap_cons, hc]

lemma ackFrames_postProcess (st : ClientState) (i : String) :
    ackFrames (StompClient._postProcessMessage st i).2 = [] := by
  unfold StompClient._postProcessMessage StompClient._finish
  split
  · rfl
  · unfold StompClient._disconnect
    split <;> rfl

lemma sendFrames_postProcess (st : ClientState) (i : String) :
    sendFrames (StompClient._postProcessMessage st i).2 = [] := by
  unfold StompClient._postProcessMessage StompClient._finish
  split
  · rfl
  · unfold StompClient._disconnect
    split <;> rfl

lemma postProcess_disconnecting (st : ClientState) (i : String) :
    (StompClient._postProcessMessage st i).1.disconnecting = st.disconnecting := by
  unfold StompClient._postProcessMessage StompClient._finish
  split
  · rfl
  · unfold StompClient._disconnect
    split <;> rfl

lemma postProcess_disconnectError (st : ClientState) (i : String) :
    (StompClient._postProcessMessage st i).1.disconnectError = st.disconnectError := by
  unfold StompClient._postProcessMessage StompClient._finish
  split
  · rfl
  · unfold StompClient._disconnect
    split <;> rfl

lemma postProcess_no_drain (st : ClientState) (i : String)
    (hf : st.finishedHandlersDeferred = false) :
    (StompClient._postProcessMessage st i).2 = [] := by
  simp [StompClient._postProcessMessage, StompClient._finish,
        StompClient._handlerFinished, hf]

/-- Claim C4: when a dispatched MESSAGE handler completes successfully, ack
mode `auto` produces no ACK frame, while `client` and `client-individual`
produce exactly one ACK frame carrying the original message-id. -/
theorem C4_ack_mode_gating (st : ClientState) (i : String) (msg : Frame)
    (sub : SubscriptionRec) :
    (sub.ack = "auto" →
      ackFrames (StompClient.handlerCompleted st i msg sub none).2 = []) ∧
    (sub.ack = "client" ∨ sub.ack = "client-individual" →
      ackFrames (StompClient.handlerCompleted st i msg sub none).2
        = [commands.ack [(MESSAGE_ID_HEADER, i)]]) := by
  constructor
  · intro hauto
    have hAck : StompClient._isClientAck sub = false := by
      simp [StompClient._isClientAck, hauto]
    simp [StompClient.handlerCompleted, hAck, ackFrames_postProcess]
  · intro hclient
    have hAck : StompClient._isClientAck sub = true := by
      simp [StompClient._isClientAck]
      rcases hclient with h | h <;> simp [h]
    simp [StompClient.handlerCompleted, hAck, ackFrames_wire_cons, ackFrameFor,
          commands.ack, ackFrames_postProcess]

lemma getHeader_setHeader_self (hs : List (String × String)) (k v : String) :
    getHeader (setHeader hs k v) k = some v := by
  induction hs with
  | nil => simp [setHeader, getHeader]
  | cons p rest ih =>
      obtain ⟨a, b⟩ := p
      by_cases h : a = k <;> simp [setHeader, getHeader, h, ih]

lemma getHeader_setHeader_ne (hs : List (String × String)) (k' k v : String)
    (h : ¬ k' = k) :
    getHeader (setHeader hs k' v) k = getHeader hs k := by
  induction hs with
  | nil => simp [setHeader, getHeader, h]
  | cons p rest ih =>
      obtain ⟨a, b⟩ := p
      by_cases ha : a = k'
      · subst ha
        simp [setHeader, getHeader, h]
      · simp [setHeader, getHeader, ha, ih]

lemma disconnect_first (st : ClientState) (cause : Option StompError)
    (hd : st.disconnecting = false) :
    (StompClient.disconnect st cause).1.disconnecting = true ∧
    (StompClient.disconnect st cause).1.disconnectError
      = (if cause.isSome then cause else st.disconnectError) ∧
    sendFrames (StompClient.disconnect st cause).2.1 = [] ∧
    ackFrames (StompClient.disconnect st cause).2.1 = [] := by
  cases cause <;>
    · unfold StompClient.disconnect
      simp only [hd, Option.isSome_some, Option.isSome_none, if_true, if_false,
        Bool.not_false, if_pos, Bool.false_eq_true]
      split
      · exact ⟨rfl, rfl, rfl, rfl⟩
      · unfold StompClient._disconnect
        split <;> exact ⟨rfl, rfl, rfl, rfl⟩

/-- Claim C5: when a handler raises with an error destination configured and
always-disconnect disabled, exactly one persistent clone of the message is
forwarded to the error destination, exactly one ACK of the original
message-id is sent, and no disconnect is initiated; with no error
destination, or with always-disconnect enabled, the failure is recorded as
the disconnect cause and graceful disconnect is initiated. -/
theorem C5_error_destination_recovery (st : ClientState) (i : String) (msg : Frame)
    (sub : SubscriptionRec) (e : StompError)
    (hd : st.disconnecting = false) (hf : st.finishedHandlersDeferred = false) :
    (∀ d, sub.errorDestination = some d → st.alwaysDisconnectOnUnhandledMsg = false →
      sendFrames (StompClient.handlerCompleted st i msg sub (some e)).2
        = [commands.send d (cloneStompMessage msg).body (cloneStompMessage msg).headers] ∧
      getHeader (commands.send d (cloneStompMessage msg).body
        (cloneStompMessage msg).headers).headers "persistent" = some "true" ∧
      ackFrames (StompClient.handlerCompleted st i msg sub (some e)).2
        = [commands.ack [(MESSAGE_ID_HEADER, i)]] ∧
      (StompClient.handlerCompleted st i msg sub (some e)).1.disconnecting = false ∧
      sentDisconnect (StompClient.handlerCompleted st i msg sub (some e)).2 = false) ∧
    (sub.errorDestination = none →
      (StompClient.handlerCompleted st i msg sub (some e)).1.disconnecting = true ∧
      (StompClient.handlerCompleted st i msg sub (some e)).1.disconnectError = some e ∧
      sendFrames (StompClient.handlerCompleted st i msg sub (some e)).2 = [] ∧
      ackFrames (StompClient.handlerCompleted st i msg sub (some e)).2 = []) ∧
    (∀ d, sub.errorDestination = some d → st.alwaysDisconnectOnUnhandledMsg = true →
      (StompClient.handlerCompleted st i msg sub (some e)).1.disconnecting = true ∧
      (StompClient.handlerCompleted st i msg sub (some e)).1.disconnectError = some e ∧
      sendFrames (StompClient.handlerCompleted st i msg sub (some e)).2
        = [commands.send d (cloneStompMessage msg).body (cloneStompMessage msg).headers] ∧
      ackFrames (StompClient.handlerCompleted st i msg sub (some e)).2
        = [commands.ack [(MESSAGE_ID_HEADER, i)]]) := by
  refine ⟨?_, ?_, ?_⟩
  · intro d hED hA
    have hpp2 := postProcess_no_drain st i hf
    have hR : StompClient.handlerCompleted st i msg sub (some e)
        = ((StompClient._postProcessMessage st i).1,
           [Output.wire (commands.send d (cloneStompMessage msg).body
              (cloneStompMessage msg).headers),
            Output.wire (ackFrameFor i)]) := by
      simp [StompClient.handlerCompleted, hED, StompClient._messageHandlerFailed, hA, hpp2]
    rw [hR]
    refine ⟨?_, ?_, ?_, ?_, ?_⟩
    · simp [sendFrames_wire_cons, commands.send, ackFrameFor, commands.ack, sendFrames]
    · rw [commands.send]
      show getHeader (setHeader (cloneStompMessage msg).headers DESTINATION_HEADER d)
        "persistent" = some "true"
      rw [getHeader_setHeader_ne _ _ _ _ (by decide)]
      exact getHeader_setHeader_self msg.headers "persistent" "true"
    · simp [ackFrames_wire_cons, commands.send, ackFrameFor, commands.ack, ackFrames]
    · rw [postProcess_disconnecting]
      exact hd
    · simp [sentDisconnect_cons, commands.send, ackFrameFor, commands.ack, sentDisconnect]
  · intro hED
    obtain ⟨f1, f2, f3, f4⟩ := disconnect_first st (some e) hd
    have hR : StompClient.handlerCompleted st i msg sub (some e)
        = ((StompClient._postProcessMessage (StompClient.disconnect st (some e)).1 i).1,
           (StompClient.disconnect st (some e)).2.1
             ++ (StompClient._postProcessMessage
                  (StompClient.disconnect st (some e)).1 i).2) := by
      simp [StompClient.handlerCompleted, StompClient._messageHandlerFailed, hED]
    rw [hR]
    refine ⟨?_, ?_, ?_, ?_⟩
    · rw [postProcess_disconnecting]
      exact f1
    · rw [postProcess_disconnectError]
      simpa using f2
    · rw [sendFrames_append, f3, sendFrames_postProcess]
      rfl
    · rw [ackFrames_append, f4, ackFrames_postProcess]
      rfl
  · intro d hED hA
    obtain ⟨f1, f2, f3, f4⟩ := disconnect_first st (some e) hd
    have hR : StompClient.handlerCompleted st i msg sub (some e)
        = ((StompClient._postProcessMessage (StompClient.disconnect st (some e)).1 i).1,
           (Output.wire (commands.send d (cloneStompMessage msg).body
              (cloneStompMessage msg).headers)
             :: Output.wire (ackFrameFor i)
             :: (StompClient.disconnect st (some e)).2.1)
             ++ (StompClient._postProcessMessage
                  (StompClient.disconnect st (some e)).1 i).2) := by
      simp [StompClient.handlerCompleted, StompClient._messageHandlerFailed, hED, hA]
    rw [hR]
    refine ⟨?_, ?_, ?_, ?_⟩
    · rw [postProcess_disconnecting]
      exact f1
    · rw [postProcess_disconnectError]
      simpa using f2
    · rw [sendFrames_append, sendFrames_wire_cons, sendFrames_wire_cons, f3,
          sendFrames_postProcess]
      simp [commands.send, ackFrameFor, commands.ack]
    · rw [ackFrames_append, ackFrames_wire_cons, ackFrames_wire_cons, f4,
          ackFrames_postProcess]
      simp [commands.send, ackFrameFor, commands.ack]

/-- Claim C6: when the drained disconnect completes (`_disconnect`), the
Session's subscription records are cleared exactly when no disconnect error
was recorded; a dirty disconnect leaves them unchanged for later replay. -/
theorem C6_disconnect_forgets_subscriptions_iff_clean (st : ClientState) :
    (StompClient._disconnect st).1.session.subs
      = (if st.disconnectError.isNone then [] else st.session.subs) ∧
    (StompClient._disconnect st).1.disconnectError = st.disconnectError := by
  unfold StompClient._disconnect SessionState.replay
  split <;> simp_all

/-- Claim C7, counterexample: a second `disconnect(cause)` while already
disconnecting overwrites the previously recorded cause — `disconnect` assigns
`_disconnectError = failure` before the idempotence check — refuting the
claim that a previously recorded cause is never overwritten. -/
theorem C7_counterexample_cause_overwritten :
    exDirtyState.disconnecting = true ∧
    exDirtyState.disconnectError = some (StompError.connectionError "earlier cause") ∧
    (StompClient.disconnect exDirtyState
        (some (StompError.protocolError "later cause"))).1.disconnectError
      = some (StompError.protocolError "later cause") := by
  exact ⟨rfl, rfl, rfl⟩

/-- Claim C7 as amended: a second call to `disconnect(cause)` while the
disconnecting flag is set changes nothing except recording `cause` whenever
one is passed — overwriting any previously recorded cause — and in
particular starts no second drain and writes no second DISCONNECT frame. -/
theorem C7_amended_second_disconnect (st : ClientState) (cause : Option StompError)
    (hd : st.disconnecting = true) :
    (StompClient.disconnect st cause).1
      = { st with disconnectError := if cause.isSome then cause else st.disconnectError } ∧
    (StompClient.disconnect st cause).2.1 = [] ∧
    (StompClient.disconnect st cause).2.2
      = (if st.disconnectedDeferred then some () else none) := by
  obtain ⟨se, aw, su, cd, cts, ce, dd, fhd, dc, de, ah⟩ := st
  simp only at hd
  subst hd
  cases cause <;> simp [StompClient.disconnect]

/-- Claim C8, counterexample: unsubscribing a token absent from the local
registry (and from the Session) propagates the Session's
`UnknownSubscription` failure to the caller, because the frame is built via
the session before the guarded `pop` — refuting the claim that no exception
ever propagates for an unknown token. -/
theorem C8_counterexample_unknown_token_raises :
    (StompClient.init ⟨[], 0⟩ false).subscriptions = [] ∧
    StompClient.unsubscribe (StompClient.init ⟨[], 0⟩ false)
        { destination := "/queue/a", subscriptionId := some "0" }
      = Except.error (StompError.unknownSubscription "subscription id unknown") := by
  exact ⟨rfl, rfl⟩

/-- Claim C8 as amended: when the token is unknown to the Session, the
Session's UnknownSubscription failure propagates to the caller and no frame
is sent; when the Session knows the token but the client's local registry
does not, a warning is logged, nothing propagates and no frame is sent; when
both know it, the registration is removed and the UNSUBSCRIBE frame goes
out. -/
theorem C8_amended_unsubscribe (st : ClientState) (tok : Token) :
    (st.session.subs.any (fun r => decide (r.token = tok)) = false →
      StompClient.unsubscribe st tok
        = Except.error (StompError.unknownSubscription "subscription id unknown")) ∧
    (∀ sess' frame, st.session.unsubscribe tok = Except.ok (sess', frame) →
      lookupSub st.subscriptions (SessionState.token frame.headers) = none →
      StompClient.unsubscribe st tok
        = Except.ok ({ st with session := sess' }, [Output.logWarn])) ∧
    (∀ sess' frame sub, st.session.unsubscribe tok = Except.ok (sess', frame) →
      lookupSub st.subscriptions (SessionState.token frame.headers) = some sub →
      StompClient.unsubscribe st tok
        = Except.ok ({ st with session := sess', subscriptions := popSub st.subscriptions (SessionState.token frame.headers) }, [Output.wire frame])) := by
  refine ⟨?_, ?_, ?_⟩
  · intro hnone
    simp [StompClient.unsubscribe, SessionState.unsubscribe, hnone]
  · intro sess' frame hok hmiss
    simp [StompClient.unsubscribe, hok, hmiss]
  · intro sess' frame sub hok hhit
    simp [StompClient.unsubscribe, hok, hhit]

/-- Claim C9: the disconnected deferred is created only inside CONNECTED
handling — a fresh client has none and `connect` creates none — and
`disconnect()` on a client whose disconnected deferred was never created
returns None, so the caller cannot observe completion. -/
theorem C9_disconnect_before_connected_returns_none
    (session : SessionState) (alwaysDisc : Bool) (login passcode : String)
    (timeout : Option Nat) (cause : Option StompError) :
    (StompClient.init session alwaysDisc).disconnectedDeferred = false ∧
    (StompClient.connect (StompClient.init session alwaysDisc) login passcode
      timeout).1.disconnectedDeferred = false ∧
    (∀ st : ClientState, st.disconnectedDeferred = false →
      (StompClient.disconnect st cause).2.2 = none) := by
  refine ⟨rfl, ?_, ?_⟩
  · cases timeout <;> simp [StompClient.connect, StompClient.init]
  · intro st hdd
    cases cause <;>
      · unfold StompClient.disconnect
        simp only [Option.isSome_some, Option.isSome_none, if_true, if_false,
          Bool.false_eq_true]
        split
        · split
          · simp [hdd]
          · unfold StompClient._disconnect
            split <;> simp [hdd]
        · simp [hdd]

/-- Claim C10: a MESSAGE frame whose token matches no registered
subscription, or one arriving while the disconnecting flag is set, is
dropped without raising: the state is unchanged, nothing is written to the
transport, no handler starts and no duplicate-id ProtocolError is raised —
even when its message-id is already in the active-handlers set. -/
theorem C10_unmatched_or_draining_message_dropped
    (st : ClientState) (msg : Frame) (i : String)
    (hid : getHeader msg.headers MESSAGE_ID_HEADER = some i)
    (h : lookupSub st.subscriptions (SessionState.token msg.headers) = none ∨
         st.disconnecting = true) :
    (StompClient._handleMessage st msg).1 = st ∧
    (∀ f, Output.wire f ∉ (StompClient._handleMessage st msg).2.1) ∧
    (∀ sub, (StompClient._handleMessage st msg).2.2 ≠ DispatchResult.started sub) ∧
    (∀ e, (StompClient._handleMessage st msg).2.2 ≠ DispatchResult.dispatchError e) := by
  rcases h with h | h
  · simp [StompClient._handleMessage, hid, h]
  · cases hl : lookupSub st.subscriptions (SessionState.token msg.headers) <;>
      simp [StompClient._handleMessage, hid, hl, h]

/-- Concrete witness instantiating the claim C2 theorem, with every
hypothesis discharged on explicit inputs. -/
theorem C2_witness :
    (getHeader exMsg.headers MESSAGE_ID_HEADER = some "m1") ∧
    (lookupSub exClient.subscriptions (SessionState.token exMsg.headers) = some exSub) ∧
    ((lookupSub exClient.subscriptions (SessionState.token exMsg.headers)).isSome = true) ∧
    (exClient.disconnecting = false) ∧
    ("m1" ∉ exClient.activeHandlers) ∧
    ((StompClient._handleMessage exClient exMsg).2.2 = DispatchResult.started exSub ∧
     (StompClient._handleMessage exClient exMsg).1.activeHandlers
       = "m1" :: exClient.activeHandlers ∧
     ((StompClient._handleMessage (StompClient._handleMessage exClient exMsg).1 exMsg).2.2
       = DispatchResult.dispatchError (StompError.protocolError "Duplicate message received")) ∧
     (StompClient._handleMessage (StompClient._handleMessage exClient exMsg).1 exMsg).1
       = (StompClient._handleMessage exClient exMsg).1) :=
  ⟨by decide, by decide, by decide, rfl, by decide,
   C2_duplicate_message_raises exClient exMsg exMsg "m1" exSub (by decide) (by decide)
     (by decide) (by decide) rfl (by decide)⟩

/-- Concrete witness instantiating the claim C3 theorem, with every
hypothesis discharged on explicit inputs. -/
theorem C3_witness :
    ((StompClient.init ⟨[], 0⟩ false).disconnecting = false) ∧
    ((StompClient.init ⟨[], 0⟩ false).activeHandlers = []) ∧
    (sentDisconnect (StompClient.disconnect (StompClient.init ⟨[], 0⟩ false) none).2.1 = true) ∧
    (exDraining.disconnecting = false) ∧
    (exDraining.activeHandlers ≠ []) ∧
    (eraseAll exDraining.activeHandlers [exCompletion1] ≠ []) ∧
    (eraseAll exDraining.activeHandlers ([exCompletion1] ++ [exCompletion2]) = []) ∧
    (sentDisconnect (StompClient.disconnect exDraining none).2.1 = false ∧
     sentDisconnect
       (runCompletions (StompClient.disconnect exDraining none).1 [exCompletion1]).2 = false ∧
     sentDisconnect (StompClient.handlerCompleted
       (runCompletions (StompClient.disconnect exDraining none).1 [exCompletion1]).1
       exCompletion2.messageId exCompletion2.msg exCompletion2.sub exCompletion2.outcome).2
       = true) :=
  ⟨rfl, rfl,
   C3_drain_before_disconnect.1 (StompClient.init ⟨[], 0⟩ false) none rfl rfl,
   rfl, by decide, by decide, by decide,
   C3_drain_before_disconnect.2 exDraining none [exCompletion1] exCompletion2 rfl
     (by decide) (by decide) (by decide)⟩

/-- Concrete witness instantiating the claim C4 theorem, with every
hypothesis discharged on explicit inputs. -/
theorem C4_witness :
    (exSubAuto.ack = "auto") ∧
    ackFrames (StompClient.handlerCompleted exClient "m1" exMsg exSubAuto none).2 = [] ∧
    (exSub.ack = "client" ∨ exSub.ack = "client-individual") ∧
    ackFrames (StompClient.handlerCompleted exClient "m1" exMsg exSub none).2
      = [commands.ack [(MESSAGE_ID_HEADER, "m1")]] :=
  ⟨rfl, (C4_ack_mode_gating exClient "m1" exMsg exSubAuto).1 rfl,
   Or.inl rfl, (C4_ack_mode_gating exClient "m1" exMsg exSub).2 (Or.inl rfl)⟩

/-- Concrete witness instantiating the claim C5 theorem, with every
hypothesis discharged on explicit inputs. -/
theorem C5_witness :
    (exClient.disconnecting = false) ∧
    (exClient.finishedHandlersDeferred = false) ∧
    (exSubErr.errorDestination = some "/queue/err") ∧
    (exClient.alwaysDisconnectOnUnhandledMsg = false) ∧
    (sendFrames (StompClient.handlerCompleted exClient "m1" exMsg exSubErr
        (some (StompError.protocolError "handler failed"))).2
       = [commands.send "/queue/err" (cloneStompMessage exMsg).body
            (cloneStompMessage exMsg).headers] ∧
     getHeader (commands.send "/queue/err" (cloneStompMessage exMsg).body
       (cloneStompMessage exMsg).headers).headers "persistent" = some "true" ∧
     ackFrames (StompClient.handlerCompleted exClient "m1" exMsg exSubErr
        (some (StompError.protocolError "handler failed"))).2
       = [commands.ack [(MESSAGE_ID_HEADER, "m1")]] ∧
     (StompClient.handlerCompleted exClient "m1" exMsg exSubErr
        (some (StompError.protocolError "handler failed"))).1.disconnecting = false ∧
     sentDisconnect (StompClient.handlerCompleted exClient "m1" exMsg exSubErr
        (some (StompError.protocolError "handler failed"))).2 = false) :=
  ⟨rfl, rfl, rfl, rfl,
   (C5_error_destination_recovery exClient "m1" exMsg exSubErr
      (StompError.protocolError "handler failed") rfl rfl).1 "/queue/err" rfl rfl⟩

/-- Concrete witness instantiating the claim C7 theorem, with every
hypothesis discharged on explicit inputs. -/
theorem C7_amended_witness :
    (exDirtyState.disconnecting = true) ∧
    ((StompClient.disconnect exDirtyState
        (some (StompError.protocolError "later cause"))).1
       = { exDirtyState with disconnectError := some (StompError.protocolError "later cause") } ∧
     (StompClient.disconnect exDirtyState
        (some (StompError.protocolError "later cause"))).2.1 = [] ∧
     (StompClient.disconnect exDirtyState
        (some (StompError.protocolError "later cause"))).2.2
       = (if exDirtyState.disconnectedDeferred then some () else none)) :=
  ⟨rfl, C7_amended_second_disconnect exDirtyState
    (some (StompError.protocolError "later cause")) rfl⟩

/-- Concrete witness instantiating the claim C8 theorem, with every
hypothesis discharged on explicit inputs. -/
theorem C8_amended_witness :
    ((StompClient.init ⟨[], 0⟩ false).session.subs.any
       (fun r => decide (r.token = exToken)) = false) ∧
    (StompClient.unsubscribe (StompClient.init ⟨[], 0⟩ false) exToken
       = Except.error (StompError.unknownSubscription "subscription id unknown")) ∧
    (exClientNoLocal.session.unsubscribe exToken
       = Except.ok (⟨[], 1⟩, exUnsubFrame)) ∧
    (lookupSub exClientNoLocal.subscriptions (SessionState.token exUnsubFrame.headers)
       = none) ∧
    (StompClient.unsubscribe exClientNoLocal exToken
       = Except.ok ({ exClientNoLocal with session := ⟨[], 1⟩ }, [Output.logWarn])) ∧
    (exClientBoth.session.unsubscribe exToken = Except.ok (⟨[], 1⟩, exUnsubFrame)) ∧
    (lookupSub exClientBoth.subscriptions (SessionState.token exUnsubFrame.headers)
       = some exSub) ∧
    (StompClient.unsubscribe exClientBoth exToken
       = Except.ok ({ exClientBoth with session := ⟨[], 1⟩, subscriptions := popSub exClientBoth.subscriptions (SessionState.token exUnsubFrame.headers) }, [Output.wire exUnsubFrame])) :=
  ⟨rfl,
   (C8_amended_unsubscribe (StompClient.init ⟨[], 0⟩ false) exToken).1 rfl,
   rfl, rfl,
   (C8_amended_unsubscribe exClientNoLocal exToken).2.1 ⟨[], 1⟩ exUnsubFrame
     rfl rfl,
   rfl, by decide,
   (C8_amended_unsubscribe exClientBoth exToken).2.2 ⟨[], 1⟩ exUnsubFrame exSub
     rfl (by decide)⟩

/-- Concrete witness instantiating the claim C9 theorem, with every
hypothesis discharged on explicit inputs. -/
theorem C9_witness :
    ((StompClient.init ⟨[], 0⟩ false).disconnectedDeferred = false) ∧
    ((StompClient.connect (StompClient.init ⟨[], 0⟩ false) "login" "passcode"
       (some 30)).1.disconnectedDeferred = false) ∧
    ((StompClient.disconnect (StompClient.init ⟨[], 0⟩ false) none).2.2 = none) :=
  ⟨(C9_disconnect_before_connected_returns_none ⟨[], 0⟩ false "login" "passcode"
      (some 30) none).1,
   (C9_disconnect_before_connected_returns_none ⟨[], 0⟩ false "login" "passcode"
      (some 30) none).2.1,
   (C9_disconnect_before_connected_returns_none ⟨[], 0⟩ false "login" "passcode"
      (some 30) none).2.2 (StompClient.init ⟨[], 0⟩ false) rfl⟩

/-- Concrete witness instantiating the claim C10 theorem, with every
hypothesis discharged on explicit inputs. -/
theorem C10_witness :
    (getHeader exMsg.headers MESSAGE_ID_HEADER = some "m1") ∧
    (lookupSub exDrainingFull.subscriptions (SessionState.token exMsg.headers) = none ∨
       exDrainingFull.disconnecting = true) ∧
    ("m1" ∈ exDrainingFull.activeHandlers) ∧
    ((StompClient._handleMessage exDrainingFull exMsg).1 = exDrainingFull ∧
     (∀ f, Output.wire f ∉ (StompClient._handleMessage exDrainingFull exMsg).2.1) ∧
     (∀ sub, (StompClient._handleMessage exDrainingFull exMsg).2.2
        ≠ DispatchResult.started sub) ∧
     (∀ e, (StompClient._handleMessage exDrainingFull exMsg).2.2
        ≠ DispatchResult.dispatchError e)) :=
  ⟨by decide, Or.inr rfl, by decide,
   C10_unmatched_or_draining_message_dropped exDrainingFull exMsg "m1" (by decide)
     (Or.inr rfl)⟩

end Stompest
